import Mathlib

/-
Shallow embedding of the analytics core of `src/app.py` (AgroData irrigation
dashboard): the KPI aggregator `kpis_basicos`, the rule evaluator
`recomendacao_ia`, and the dashboard period filter that feeds them.

Modelling choices:
* A pandas row becomes a `Row` record; a dataframe becomes a `List Row`
  (kept in the caller-supplied order, ascending by timestamp per contract).
* Python floats become `ℚ`; timestamps become `ℚ` measured in hours, so
  `pd.Timedelta(hours=h)` is the rational `h`.
* The formatted message strings of `recomendacao_ia` become an inductive
  `Msg` carrying the numeric values that the Python f-strings interpolate;
  the severity strings ("info", "warning", "error", "success") are kept as
  `String` literals exactly as in the source.
* `None` guards for division by zero become `Option ℚ`.
-/

namespace AgroData

/-- One hourly observation: the six columns of the dataframe built by
`gerar_dados_exemplo` / loaded by `carregar_dados`. `bomba_ligada` is the
0/1 integer flag used by the source (`df["bomba_ligada"] == 1`). -/
structure Row where
  timestamp : ℚ
  lamina_cm : ℚ
  vazao_m3h : ℚ
  energia_kwh : ℚ
  chuva_mm : ℚ
  bomba_ligada : Int
  deriving Repr, DecidableEq, Inhabited

/-- A dataframe restricted to the six columns: a list of rows. -/
abbrev Series := List Row

/-- Column sum `df["energia_kwh"].sum()`. -/
def somaEnergia (df : Series) : ℚ := (df.map Row.energia_kwh).sum

/-- Column sum `df["vazao_m3h"].sum()`. -/
def somaVazao (df : Series) : ℚ := (df.map Row.vazao_m3h).sum

/-- Column sum `df["chuva_mm"].sum()`. -/
def somaChuva (df : Series) : ℚ := (df.map Row.chuva_mm).sum

/-- Column sum `df["lamina_cm"].sum()`, used for the mean. -/
def somaLamina (df : Series) : ℚ := (df.map Row.lamina_cm).sum

/-- Column sum `df["bomba_ligada"].sum()` (the 0/1 flags). -/
def somaBomba (df : Series) : Int := (df.map Row.bomba_ligada).sum

/-- `df["timestamp"].max()` on a non-empty series (the empty case is out of
the caller contract; we return 0 there, it is never relied upon). -/
def tsMax : Series → ℚ
  | [] => 0
  | r :: rs => rs.foldl (fun m x => max m x.timestamp) r.timestamp

/-- The window slice `df[df["timestamp"] >= t]`. -/
def janelaDesde (df : Series) (t : ℚ) : Series :=
  df.filter (fun r => t ≤ r.timestamp)

/-- The KPI snapshot dictionary returned by `kpis_basicos`. -/
structure KPI where
  lamina_media : ℚ
  total_energia : ℚ
  total_volume : ℚ
  eficiencia : Option ℚ
  horas_bomba : Int
  chuva_24h : ℚ
  deriving Repr, DecidableEq

/-- `kpis_basicos(df)` (src/app.py lines 176-192): column sums, the mean
depth, the zero-guarded efficiency ratio, the pump-hour count and the
trailing-24h rainfall relative to the slice's own maximum timestamp. -/
def kpis_basicos (df : Series) : KPI :=
  let total_energia := somaEnergia df
  let total_volume := somaVazao df
  let lamina_media := somaLamina df / (df.length : ℚ)
  let eficiencia : Option ℚ :=
    if total_volume > 0 then some (total_energia / total_volume) else none
  let horas_bomba := somaBomba df
  let chuva_24h := somaChuva (janelaDesde df (tsMax df - 24))
  { lamina_media := lamina_media, total_energia := total_energia,
    total_volume := total_volume, eficiencia := eficiencia,
    horas_bomba := horas_bomba, chuva_24h := chuva_24h }

/-- `ult_6h = df[df["timestamp"] >= agora - Timedelta(hours=6)]`. -/
def ult6h (df : Series) : Series := janelaDesde df (tsMax df - 6)

/-- `ult_24h = df[df["timestamp"] >= agora - Timedelta(hours=24)]`. -/
def ult24h (df : Series) : Series := janelaDesde df (tsMax df - 24)

/-- `chuva_24h = ult_24h["chuva_mm"].sum()` inside `recomendacao_ia`. -/
def chuva24 (df : Series) : ℚ := somaChuva (ult24h df)

/-- `lamina_atual = float(df.iloc[-1]["lamina_cm"])`: the depth of the
positionally last row (chronologically last under the sortedness contract). -/
def laminaAtual (df : Series) : ℚ := (df.getLastD default).lamina_cm

/-- `eficiencia_6h = energia_6h / volume_6h if volume_6h > 0 else None`. -/
def eficiencia6h (df : Series) : Option ℚ :=
  if somaVazao (ult6h df) > 0 then some (somaEnergia (ult6h df) / somaVazao (ult6h df))
  else none

/-- `df_ligada = df[df["bomba_ligada"] == 1]`. -/
def dfLigada (df : Series) : Series :=
  df.filter (fun r => r.bomba_ligada == 1)

/-- `base_ef`: `None` unless `len(df_ligada) > 10 and df_ligada["vazao_m3h"].sum() > 0`,
in which case it is the pump-on energy/volume ratio (src/app.py lines 213-216). -/
def base_ef (df : Series) : Option ℚ :=
  if (dfLigada df).length > 10 ∧ somaVazao (dfLigada df) > 0 then
    some (somaEnergia (dfLigada df) / somaVazao (dfLigada df))
  else none

/-- Abstraction of the five f-string messages of `recomendacao_ia`, each
carrying the numeric values the source interpolates into the text. -/
inductive Msg where
  | chuvaHold (chuva_24h : ℚ)
  | laminaAlta (lamina : ℚ)
  | laminaBaixa (lamina : ℚ)
  | eficienciaAlerta (ef_6h baseline : ℚ)
  | padraoOk
  deriving Repr, DecidableEq

/-- The mutable pair `(mensagens, nivel)` threaded through the rule blocks. -/
abbrev Estado := List Msg × String

/-- Rule 1 block (lines 221-226): `if chuva_24h >= 10` append the rainfall
hold message and set `nivel = "warning"`. -/
def passoChuva (df : Series) (s : Estado) : Estado :=
  if 10 ≤ chuva24 df then (s.1 ++ [Msg.chuvaHold (chuva24 df)], "warning") else s

/-- Rule 2 block (lines 228-233): `if lamina_atual >= 9.5` append the high
depth message and set `nivel = "warning"`. -/
def passoLaminaAlta (df : Series) (s : Estado) : Estado :=
  if 9.5 ≤ laminaAtual df then (s.1 ++ [Msg.laminaAlta (laminaAtual df)], "warning") else s

/-- Rule 3 block (lines 235-240): `if lamina_atual <= 6.0` append the low
depth message and set `nivel = "error"`. -/
def passoLaminaBaixa (df : Series) (s : Estado) : Estado :=
  if laminaAtual df ≤ 6 then (s.1 ++ [Msg.laminaBaixa (laminaAtual df)], "error") else s

/-- Rule 4 block (lines 242-249): only when both ratios are present and
`eficiencia_6h > base_ef * 1.15`, append the efficiency alert and set
`nivel = "warning"` (note: an unconditional assignment, even after rule 3). -/
def passoEficiencia (df : Series) (s : Estado) : Estado :=
  match eficiencia6h df, base_ef df with
  | some e, some b =>
      if b * 1.15 < e then (s.1 ++ [Msg.eficienciaAlerta e b], "warning") else s
  | _, _ => s

/-- Fallback block (lines 251-256): `if not mensagens` append the
within-norms message and set `nivel = "success"`. -/
def passoPadrao (s : Estado) : Estado :=
  if s.1 = [] then ([Msg.padraoOk], "success") else s

/-- `recomendacao_ia(df)` (src/app.py lines 195-258): runs the four rule
blocks in source order on the initial state `([], "info")`, applies the
no-fire fallback, and returns `(nivel, mensagens)`. -/
def recomendacao_ia (df : Series) : String × List Msg :=
  let s := passoPadrao (passoEficiencia df (passoLaminaBaixa df
    (passoLaminaAlta df (passoChuva df ([], "info")))))
  (s.2, s.1)

/-- Boolean form of the rule 4 firing condition. -/
def regraEficiencia (df : Series) : Bool :=
  match eficiencia6h df, base_ef df with
  | some e, some b => decide (b * 1.15 < e)
  | _, _ => false

/-- The sidebar period selector (src/app.py lines 311-315). -/
inductive Periodo where
  | ultimas24h
  | ultimos3dias
  | ultimos7dias
  | tudo
  deriving Repr, DecidableEq

/-- The dashboard filter (src/app.py lines 317-324): `df_f` as a function of
the loaded series and the selected period (3 days = 72 h, 7 days = 168 h;
the `Tudo` branch is `df.copy()`, i.e. an equal series). -/
def filtraPeriodo (df : Series) (p : Periodo) : Series :=
  let max_data := tsMax df
  match p with
  | Periodo.ultimas24h => df.filter (fun r => max_data - 24 ≤ r.timestamp)
  | Periodo.ultimos3dias => df.filter (fun r => max_data - 72 ≤ r.timestamp)
  | Periodo.ultimos7dias => df.filter (fun r => max_data - 168 ≤ r.timestamp)
  | Periodo.tudo => df

/-- The series the dashboard actually passes to the rule evaluator at
src/app.py line 340: `recomendacao_ia(df_f)`, i.e. the period-filtered frame. -/
def serieRecomendacao (df : Series) (p : Periodo) : Series := filtraPeriodo df p

/-- The message list contributed by rule 4: the singleton alert when the
rule fires, empty otherwise. -/
def msgEficiencia (df : Series) : List Msg :=
  match eficiencia6h df, base_ef df with
  | some e, some b => if b * 1.15 < e then [Msg.eficienciaAlerta e b] else []
  | _, _ => []

/-- Closed form of the message list accumulated by the four rule blocks
(before the no-fire fallback), in source order. -/
def mensagensRegras (df : Series) : List Msg :=
  ((([] ++ (if 10 ≤ chuva24 df then [Msg.chuvaHold (chuva24 df)] else []))
    ++ (if 9.5 ≤ laminaAtual df then [Msg.laminaAlta (laminaAtual df)] else []))
    ++ (if laminaAtual df ≤ 6 then [Msg.laminaBaixa (laminaAtual df)] else []))
    ++ msgEficiencia df

/-- Closed form of `nivel` after the four rule blocks: the last firing rule
wins, because each block assigns `nivel` unconditionally. -/
def nivelRegras (df : Series) : String :=
  if regraEficiencia df then "warning"
  else if laminaAtual df ≤ 6 then "error"
  else if 9.5 ≤ laminaAtual df then "warning"
  else if 10 ≤ chuva24 df then "warning"
  else "info"

/-- Twelve sorted hourly rows, pump always on (so the baseline is defined),
whose last-6h efficiency 61/70 exceeds the baseline 11/20 by more than 15
percent and whose last depth is 5 cm: both rule 3 and rule 4 fire. -/
def c1df : Series :=
  [⟨0, 7, 10, 1, 0, 1⟩, ⟨1, 7, 10, 1, 0, 1⟩, ⟨2, 7, 10, 1, 0, 1⟩,
   ⟨3, 7, 10, 1, 0, 1⟩, ⟨4, 7, 10, 1, 0, 1⟩, ⟨5, 7, 10, 1, 0, 1⟩,
   ⟨6, 7, 10, 10, 0, 1⟩, ⟨7, 7, 10, 10, 0, 1⟩, ⟨8, 7, 10, 10, 0, 1⟩,
   ⟨9, 7, 10, 10, 0, 1⟩, ⟨10, 7, 10, 10, 0, 1⟩, ⟨11, 5, 10, 10, 0, 1⟩]

/-- A single quiet row: no rainfall, depth 7 cm, pump off, no flow. -/
def exDf1 : Series := [⟨0, 7, 0, 0, 0, 0⟩]

/-- A single row with 12 mm of rain and depth exactly 9.5 cm. -/
def exDf2 : Series := [⟨0, 9.5, 0, 0, 12, 0⟩]

/-- Ten sorted rows with the pump on and positive flow: one row short of the
strict `> 10` baseline threshold. -/
def c6wdf : Series :=
  [⟨0, 7, 10, 5, 0, 1⟩, ⟨1, 7, 10, 5, 0, 1⟩, ⟨2, 7, 10, 5, 0, 1⟩,
   ⟨3, 7, 10, 5, 0, 1⟩, ⟨4, 7, 10, 5, 0, 1⟩, ⟨5, 7, 10, 5, 0, 1⟩,
   ⟨6, 7, 10, 5, 0, 1⟩, ⟨7, 7, 10, 5, 0, 1⟩, ⟨8, 7, 10, 5, 0, 1⟩,
   ⟨9, 7, 10, 5, 0, 1⟩]

/-- Two rows 48 hours apart: the 24h period filter drops the first one. -/
def c9df : Series := [⟨0, 7, 0, 0, 0, 0⟩, ⟨48, 7, 0, 0, 0, 0⟩]

/-- State-passing form of a `kpis_basicos` call: result paired with the
caller's series after the call. The source only applies column reductions
and boolean-mask filters (which build new objects), so the post-state is
the input itself. -/
def kpis_basicos_run (df : Series) : KPI × Series := (kpis_basicos df, df)

/-- State-passing form of a `recomendacao_ia` call: the source rebinds its
parameter to `df.copy()` on entry and never writes the caller's frame, so
the post-state is the input itself. -/
def recomendacao_ia_run (df : Series) : (String × List Msg) × Series :=
  (recomendacao_ia df, df)

/-- Rule 1 block in closed form on an explicit state pair. -/
theorem passoChuva_eq (df : Series) (m : List Msg) (n : String) :
    passoChuva df (m, n) =
      (m ++ (if 10 ≤ chuva24 df then [Msg.chuvaHold (chuva24 df)] else []),
       if 10 ≤ chuva24 df then "warning" else n) := by
  by_cases h : 10 ≤ chuva24 df <;> simp [passoChuva, h]

/-- Rule 2 block in closed form on an explicit state pair. -/
theorem passoLaminaAlta_eq (df : Series) (m : List Msg) (n : String) :
    passoLaminaAlta df (m, n) =
      (m ++ (if 9.5 ≤ laminaAtual df then [Msg.laminaAlta (laminaAtual df)] else []),
       if 9.5 ≤ laminaAtual df then "warning" else n) := by
  by_cases h : 9.5 ≤ laminaAtual df <;> simp [passoLaminaAlta, h]

/-- Rule 3 block in closed form on an explicit state pair. -/
theorem passoLaminaBaixa_eq (df : Series) (m : List Msg) (n : String) :
    passoLaminaBaixa df (m, n) =
      (m ++ (if laminaAtual df ≤ 6 then [Msg.laminaBaixa (laminaAtual df)] else []),
       if laminaAtual df ≤ 6 then "error" else n) := by
  by_cases h : laminaAtual df ≤ 6 <;> simp [passoLaminaBaixa, h]

/-- Rule 4 block in closed form on an explicit state pair. -/
theorem passoEficiencia_eq (df : Series) (m : List Msg) (n : String) :
    passoEficiencia df (m, n) =
      (m ++ msgEficiencia df, if regraEficiencia df then "warning" else n) := by
  unfold passoEficiencia msgEficiencia regraEficiencia
  rcases hE : eficiencia6h df with _ | e <;> rcases hB : base_ef df with _ | b <;> simp
  by_cases h : b * 1.15 < e <;> simp [h]

/-- Rule 4 contributes no message exactly when its firing condition fails. -/
theorem msgEficiencia_eq_nil (df : Series) :
    msgEficiencia df = [] ↔ regraEficiencia df = false := by
  unfold msgEficiencia regraEficiencia
  rcases hE : eficiencia6h df with _ | e <;> rcases hB : base_ef df with _ | b <;> simp

/-- Closed form of the whole evaluator: the fallback pair if no rule fired,
otherwise the accumulated messages with the last-assigned level. -/
theorem recomendacao_ia_eq (df : Series) :
    recomendacao_ia df =
      if mensagensRegras df = [] then ("success", [Msg.padraoOk])
      else (nivelRegras df, mensagensRegras df) := by
  unfold recomendacao_ia passoPadrao mensagensRegras nivelRegras
  rw [passoChuva_eq, passoLaminaAlta_eq, passoLaminaBaixa_eq, passoEficiencia_eq]
  by_cases h4 : regraEficiencia df = true
  · have hm : msgEficiencia df ≠ [] := by
      rw [ne_eq, msgEficiencia_eq_nil]
      simp [h4]
    by_cases h1 : 10 ≤ chuva24 df <;> by_cases h2 : 9.5 ≤ laminaAtual df <;>
      by_cases h3 : laminaAtual df ≤ 6 <;> simp [h1, h2, h3, h4, hm]
  · have hm : msgEficiencia df = [] := by
      rw [msgEficiencia_eq_nil]
      simpa using h4
    by_cases h1 : 10 ≤ chuva24 df <;> by_cases h2 : 9.5 ≤ laminaAtual df <;>
      by_cases h3 : laminaAtual df ≤ 6 <;> simp [h1, h2, h3, h4, hm]

/-- The accumulated message list is empty exactly when no rule fired. -/
theorem mensagens_nil_iff (df : Series) :
    mensagensRegras df = [] ↔
      (¬10 ≤ chuva24 df ∧ ¬9.5 ≤ laminaAtual df ∧ ¬laminaAtual df ≤ 6 ∧
        regraEficiencia df = false) := by
  unfold mensagensRegras
  simp [List.append_eq_nil, msgEficiencia_eq_nil, ite_eq_right_iff, and_assoc]

/-- If either ratio is absent, rule 4 does not fire. -/
theorem regraEficiencia_false_of_absent (df : Series)
    (h : base_ef df = none ∨ eficiencia6h df = none) :
    regraEficiencia df = false := by
  unfold regraEficiencia
  rcases hE : eficiencia6h df with _ | e <;> rcases hB : base_ef df with _ | b <;>
    simp_all

/-- Without a rule 4 contribution, no efficiency alert is in the rule list. -/
theorem alerta_not_mem_mensagens (df : Series) (h : msgEficiencia df = [])
    (e b : ℚ) : Msg.eficienciaAlerta e b ∉ mensagensRegras df := by
  unfold mensagensRegras
  rw [h]
  by_cases h1 : 10 ≤ chuva24 df <;> by_cases h2 : 9.5 ≤ laminaAtual df <;>
    by_cases h3 : laminaAtual df ≤ 6 <;> simp [h1, h2, h3]

/-- The level after the rule blocks is never the "success" literal. -/
theorem nivelRegras_ne_success (df : Series) : nivelRegras df ≠ "success" := by
  unfold nivelRegras
  split_ifs <;> decide

/-- Once any rule fired, the level is a warning or an error. -/
theorem nivelRegras_of_fired (df : Series) (h : mensagensRegras df ≠ []) :
    nivelRegras df = "warning" ∨ nivelRegras df = "error" := by
  rw [ne_eq, mensagens_nil_iff] at h
  unfold nivelRegras
  split_ifs with h4 h3 h2 h1
  · exact Or.inl rfl
  · exact Or.inr rfl
  · exact Or.inl rfl
  · exact Or.inl rfl
  · exact absurd ⟨h1, h2, h3, by simpa using h4⟩ h

/-- C1: the claim that severity is "error" whenever the last depth is at
most 6.0 cm regardless of other firing rules fails on the code: on `c1df`
the low-depth rule fires (last depth 5 ≤ 6) and sets "error", but the
efficiency-degradation block, which runs afterwards and also fires,
assigns "warning" unconditionally, so the call returns "warning". -/
theorem C1_low_depth_error_overwritten :
    laminaAtual c1df ≤ 6 ∧ regraEficiencia c1df = true ∧
      recomendacao_ia c1df =
        ("warning", [Msg.laminaBaixa 5, Msg.eficienciaAlerta (61/70) (11/20)]) := by
  refine ⟨by norm_num [laminaAtual, c1df], ?_, ?_⟩
  · norm_num [regraEficiencia, eficiencia6h, base_ef, dfLigada, ult6h, janelaDesde,
      tsMax, somaVazao, somaEnergia, c1df, List.filter]
  · norm_num [recomendacao_ia, passoChuva, passoLaminaAlta, passoLaminaBaixa,
      passoEficiencia, passoPadrao, chuva24, ult24h, ult6h, janelaDesde, tsMax,
      somaChuva, somaVazao, somaEnergia, laminaAtual, eficiencia6h, dfLigada,
      base_ef, c1df, List.filter]
    simp

/-- C2: for every non-empty series with nonnegative flow entries,
`kpis_basicos` (a total function: no partial operation is reached) returns
an efficiency that is absent exactly when the total volume, the plain sum
of the flow column, is zero; when absent it stays `none` in the snapshot,
never a sentinel value. -/
theorem C2_eficiencia_absent_iff_volume_zero (df : Series) (_h1 : df ≠ [])
    (h2 : ∀ r ∈ df, 0 ≤ r.vazao_m3h) :
    (kpis_basicos df).total_volume = somaVazao df ∧
      ((kpis_basicos df).eficiencia = none ↔ (kpis_basicos df).total_volume = 0) := by
  have hnn : 0 ≤ somaVazao df := by
    apply List.sum_nonneg
    intro x hx
    obtain ⟨r, hr, rfl⟩ := List.mem_map.mp hx
    exact h2 r hr
  refine ⟨rfl, ?_⟩
  by_cases h : somaVazao df > 0
  · simp [kpis_basicos, h, h.ne']
  · have h0 : somaVazao df = 0 := le_antisymm (not_lt.mp h) hnn
    simp [kpis_basicos, h, h0]

/-- C2 witness: the single quiet row has zero flow, so the efficiency is
absent and the equivalence holds there. -/
theorem C2_witness :
    exDf1 ≠ [] ∧
      ((kpis_basicos exDf1).eficiencia = none ↔ (kpis_basicos exDf1).total_volume = 0) := by
  have h1 : exDf1 ≠ [] := by simp [exDf1]
  have h2 : ∀ r ∈ exDf1, 0 ≤ r.vazao_m3h := by
    intro r hr
    simp only [exDf1, List.mem_singleton] at hr
    subst hr
    norm_num
  exact ⟨h1, (C2_eficiencia_absent_iff_volume_zero exDf1 h1 h2).2⟩

/-- C3: the evaluator is deterministic: equal input series produce the
identical (severity, messages) pair on every call; the result is a
function of the series alone, since the reference time is the series own
maximum timestamp and no other input exists. -/
theorem C3_determinismo (df1 df2 : Series) (h : df1 = df2) :
    recomendacao_ia df1 = recomendacao_ia df2 := by
  rw [h]

/-- C3 witness: two calls on the quiet one-row series agree. -/
theorem C3_witness : recomendacao_ia exDf1 = recomendacao_ia exDf1 :=
  C3_determinismo exDf1 exDf1 rfl

/-- C4: rules are independent and additive: whenever the rainfall-hold rule
(trailing-24h rain at least 10 mm) and the high-depth rule (last depth at
least 9.5 cm) both fire, the message list contains both messages and the
severity is exactly "warning" (the low-depth rule cannot fire, as the
depth exceeds 6). -/
theorem C4_regras_aditivas (df : Series) (_h0 : df ≠ [])
    (h1 : 10 ≤ chuva24 df) (h2 : 9.5 ≤ laminaAtual df) :
    Msg.chuvaHold (chuva24 df) ∈ (recomendacao_ia df).2 ∧
      Msg.laminaAlta (laminaAtual df) ∈ (recomendacao_ia df).2 ∧
      (recomendacao_ia df).1 = "warning" := by
  have h3 : ¬laminaAtual df ≤ 6 := by
    intro hle
    have h95 : (9.5 : ℚ) ≤ 6 := le_trans h2 hle
    norm_num at h95
  have hM : mensagensRegras df ≠ [] := by
    rw [ne_eq, mensagens_nil_iff]
    rintro ⟨a, -, -, -⟩
    exact a h1
  rw [recomendacao_ia_eq, if_neg hM]
  refine ⟨?_, ?_, ?_⟩
  · simp [mensagensRegras, h1]
  · simp [mensagensRegras, h2]
  · by_cases h4 : regraEficiencia df = true <;> simp [nivelRegras, h2, h3, h4]

/-- C4 witness: one row with 12 mm of rain and depth 9.5 cm fires both
rules and yields severity "warning". -/
theorem C4_witness :
    (10 ≤ chuva24 exDf2 ∧ 9.5 ≤ laminaAtual exDf2) ∧
      (recomendacao_ia exDf2).1 = "warning" := by
  have h0 : exDf2 ≠ [] := by simp [exDf2]
  have h1 : 10 ≤ chuva24 exDf2 := by
    norm_num [chuva24, ult24h, janelaDesde, tsMax, somaChuva, exDf2, List.filter]
  have h2 : (9.5 : ℚ) ≤ laminaAtual exDf2 := by
    norm_num [laminaAtual, exDf2]
  exact ⟨⟨h1, h2⟩, (C4_regras_aditivas exDf2 h0 h1 h2).2.2⟩

/-- C5: the high-depth boundary is inclusive: a last depth of exactly 9.5
cm fires the high-depth rule, putting its message in the list and leaving
the severity at least "warning". -/
theorem C5_lamina_95_inclusiva (df : Series) (_h0 : df ≠ [])
    (h : laminaAtual df = 9.5) :
    Msg.laminaAlta (9.5 : ℚ) ∈ (recomendacao_ia df).2 ∧
      ((recomendacao_ia df).1 = "warning" ∨ (recomendacao_ia df).1 = "error") := by
  have h2 : (9.5 : ℚ) ≤ laminaAtual df := le_of_eq h.symm
  have h3 : ¬laminaAtual df ≤ 6 := by
    rw [h]
    norm_num
  have hM : mensagensRegras df ≠ [] := by
    rw [ne_eq, mensagens_nil_iff]
    rintro ⟨-, b, -, -⟩
    exact b h2
  rw [recomendacao_ia_eq, if_neg hM]
  constructor
  · have hmem : Msg.laminaAlta (laminaAtual df) ∈ mensagensRegras df := by
      simp [mensagensRegras, h2]
    rwa [h] at hmem
  · left
    by_cases h4 : regraEficiencia df = true <;> simp [nivelRegras, h2, h3, h4]

/-- C5 witness: the one-row series with depth exactly 9.5 cm. -/
theorem C5_witness :
    laminaAtual exDf2 = 9.5 ∧ Msg.laminaAlta (9.5 : ℚ) ∈ (recomendacao_ia exDf2).2 := by
  have h0 : exDf2 ≠ [] := by simp [exDf2]
  have h : laminaAtual exDf2 = 9.5 := by norm_num [laminaAtual, exDf2]
  exact ⟨h, (C5_lamina_95_inclusiva exDf2 h0 h).1⟩

/-- C6: the baseline is absent unless the pump-on subset has strictly more
than 10 rows and positive flow sum (so exactly 10 pump-on rows give an
absent baseline), and whenever the baseline or the 6h efficiency is absent
the degradation rule contributes no message; the function is total, so no
error can be raised. -/
theorem C6_baseline_guard (df : Series) :
    ((dfLigada df).length = 10 → base_ef df = none) ∧
      (∀ b, base_ef df = some b →
        10 < (dfLigada df).length ∧ 0 < somaVazao (dfLigada df)) ∧
      ((base_ef df = none ∨ eficiencia6h df = none) →
        ∀ e b, Msg.eficienciaAlerta e b ∉ (recomendacao_ia df).2) := by
  refine ⟨?_, ?_, ?_⟩
  · intro h10
    unfold base_ef
    simp [h10]
  · intro b hb
    unfold base_ef at hb
    by_cases h : (dfLigada df).length > 10 ∧ somaVazao (dfLigada df) > 0
    · exact h
    · simp [h] at hb
  · intro habs e b
    have hreg : regraEficiencia df = false := regraEficiencia_false_of_absent df habs
    have hm : msgEficiencia df = [] := (msgEficiencia_eq_nil df).mpr hreg
    rw [recomendacao_ia_eq]
    by_cases hM : mensagensRegras df = []
    · simp [hM]
    · simp only [if_neg hM]
      exact alerta_not_mem_mensagens df hm e b

/-- C6 witness: ten pump-on rows give an absent baseline and no efficiency
alert in the output. -/
theorem C6_witness :
    (dfLigada c6wdf).length = 10 ∧ base_ef c6wdf = none ∧
      Msg.eficienciaAlerta 1 1 ∉ (recomendacao_ia c6wdf).2 := by
  have h10 : (dfLigada c6wdf).length = 10 := by
    norm_num [dfLigada, c6wdf, List.filter]
  have hb : base_ef c6wdf = none := (C6_baseline_guard c6wdf).1 h10
  exact ⟨h10, hb, (C6_baseline_guard c6wdf).2.2 (Or.inl hb) 1 1⟩

/-- C7: the severity is "success" exactly when the message list has one
element and no rule fired (rain below 10 mm, last depth strictly between
6.0 and 9.5 cm, no efficiency breach or a ratio absent), and in that case
the single message is the within-norms fallback. -/
theorem C7_success_sse_nenhuma_regra (df : Series) (_h0 : df ≠ []) :
    ((recomendacao_ia df).1 = "success" ↔
      ((recomendacao_ia df).2.length = 1 ∧ chuva24 df < 10 ∧
        6 < laminaAtual df ∧ laminaAtual df < 9.5 ∧ regraEficiencia df = false)) ∧
      ((recomendacao_ia df).1 = "success" → (recomendacao_ia df).2 = [Msg.padraoOk]) := by
  rw [recomendacao_ia_eq]
  by_cases hM : mensagensRegras df = []
  · obtain ⟨n1, n2, n3, n4⟩ := (mensagens_nil_iff df).mp hM
    simp only [if_pos hM]
    constructor
    · simp only [List.length_singleton, true_and, true_iff]
      exact ⟨not_le.mp n1, not_le.mp n3, not_le.mp n2, n4⟩
    · intro hs
      trivial
  · have hns := nivelRegras_ne_success df
    simp only [if_neg hM]
    constructor
    · constructor
      · intro hs
        exact absurd hs hns
      · rintro ⟨-, hc, hl1, hl2, hr⟩
        exact absurd
          ((mensagens_nil_iff df).mpr
            ⟨not_le.mpr hc, not_le.mpr hl2, not_le.mpr hl1, hr⟩) hM
    · intro hs
      exact absurd hs hns

/-- C7 witness: the quiet one-row series gets "success" with exactly the
fallback message. -/
theorem C7_witness :
    exDf1 ≠ [] ∧
      ((recomendacao_ia exDf1).1 = "success" → (recomendacao_ia exDf1).2 = [Msg.padraoOk]) := by
  have h0 : exDf1 ≠ [] := by simp [exDf1]
  exact ⟨h0, (C7_success_sse_nenhuma_regra exDf1 h0).2⟩

/-- C8: neither call mutates its input series: in the state-passing reading
of the two calls, the post-call series equals the pre-call series
(`kpis_basicos` only reads columns; `recomendacao_ia` rebinds its
parameter to a copy on entry and never writes the caller frame). -/
theorem C8_sem_mutacao (df : Series) :
    (kpis_basicos_run df).2 = df ∧ (recomendacao_ia_run df).2 = df :=
  ⟨rfl, rfl⟩

/-- C9 counterexample: for two rows 48 hours apart under the "Ultimas 24h"
selection, the series the dashboard hands to the rule evaluator is not the
complete loaded series: the filter drops the older row. -/
theorem C9_contraexemplo :
    serieRecomendacao c9df Periodo.ultimas24h ≠ c9df := by
  norm_num [serieRecomendacao, filtraPeriodo, tsMax, c9df, List.filter]

/-- C9 amended: the dashboard passes the period-filtered frame to the rule
evaluator; that frame equals the complete loaded series for the "Tudo"
selection, but for the window selections it can be a proper subset. -/
theorem C9_amended_tudo (df : Series) :
    serieRecomendacao df Periodo.tudo = df := rfl

/-- C10: the evaluator never returns the initial severity "info": for
every non-empty series the returned severity is one of "success",
"warning", "error", since every path overwrites the initial value. -/
theorem C10_nunca_info (df : Series) (_h0 : df ≠ []) :
    (recomendacao_ia df).1 ≠ "info" ∧
      ((recomendacao_ia df).1 = "success" ∨ (recomendacao_ia df).1 = "warning" ∨
        (recomendacao_ia df).1 = "error") := by
  rw [recomendacao_ia_eq]
  by_cases hM : mensagensRegras df = []
  · simp only [if_pos hM]
    exact ⟨by decide, Or.inl (by trivial)⟩
  · simp only [if_neg hM]
    rcases nivelRegras_of_fired df hM with h | h
    · refine ⟨?_, Or.inr (Or.inl ?_)⟩ <;> simp [h]
    · refine ⟨?_, Or.inr (Or.inr ?_)⟩ <;> simp [h]

/-- C10 witness: the quiet one-row series returns a severity other than
"info". -/
theorem C10_witness : exDf1 ≠ [] ∧ (recomendacao_ia exDf1).1 ≠ "info" := by
  have h0 : exDf1 ≠ [] := by simp [exDf1]
  exact ⟨h0, (C10_nunca_info exDf1 h0).1⟩

end AgroData
